import Mathlib

/-!
Verification of the dealership-verification pipeline
(`Projects/dealership-verification/`): a shallow embedding of the
resilience layer (`error_handler.py`), the staff scorer
(`staff_extractor.py`), the hybrid extraction coordinator
(`hybrid_extractor.py`) and the batch orchestrator
(`verify_all_dealerships.py`), with theorems about their behaviour.

Timestamps are modelled as natural numbers (the Python code uses
`time.time()` floats; only comparisons and differences matter here, and
time is monotone, so `Nat` with truncated subtraction is faithful).
Python dictionaries are modelled as association lists with
insertion-order update semantics; Python truthiness of optional string
fields (`None` or `''` are falsy) is modelled with `Option String`.
-/

namespace DV

/-! ### Association-list helpers (Python dict semantics) -/

/-- Update an entry in an association list: replace in place if the key is
present (Python dict assignment preserves insertion order), append otherwise. -/
def setEntry {α : Type} : List (String × α) → String → α → List (String × α)
  | [], k, v => [(k, v)]
  | (k', v') :: rest, k, v =>
    if k' == k then (k', v) :: rest else (k', v') :: setEntry rest k v

/-! ### ErrorTracker (`error_handler.py`, class `ErrorTracker`)

`error_counts : Dict[str, Dict[str, int]]`, `circuit_open : Dict[str, bool]`,
`last_error_time : Dict[str, float]`, `error_threshold = 5`,
`reset_interval = 300`.  The per-resource locks only serialise access and
have no sequential effect, so they are not modelled. -/

/-- Per-resource error counts by error type name. -/
abbrev ErrCounts := List (String × Nat)

/-- `sum(self.error_counts[resource_key].values())`. -/
def countsSum (cs : ErrCounts) : Nat := (cs.map Prod.snd).sum

structure ErrorTracker where
  errorCounts : List (String × ErrCounts)
  circuitOpen : List (String × Bool)
  lastErrorTime : List (String × Nat)
  errorThreshold : Nat
  resetInterval : Nat
deriving Repr, DecidableEq

/-- A fresh tracker (`ErrorTracker.__init__`): empty records, threshold 5,
reset interval 300 seconds. -/
def ErrorTracker.init : ErrorTracker :=
  { errorCounts := [], circuitOpen := [], lastErrorTime := []
    errorThreshold := 5, resetInterval := 300 }

/-- Whether the circuit-open flag is set for a key:
`resource_key in self.circuit_open and self.circuit_open[resource_key]`. -/
def ErrorTracker.openFlag (t : ErrorTracker) (key : String) : Bool :=
  (t.circuitOpen.lookup key).getD false

/-- Total recorded errors for a key across all error types. -/
def ErrorTracker.totalErrors (t : ErrorTracker) (key : String) : Nat :=
  countsSum ((t.errorCounts.lookup key).getD [])

/-- `if error_type not in counts: counts[et] = 0` then `counts[et] += 1`. -/
def bumpCount (cs : ErrCounts) (et : String) : ErrCounts :=
  setEntry cs et ((cs.lookup et).getD 0 + 1)

/-- `ErrorTracker.record_error`: bump the per-type counter, stamp
`last_error_time`, and open the circuit once the total reaches the
threshold. -/
def ErrorTracker.record_error (t : ErrorTracker) (key et : String) (now : Nat) :
    ErrorTracker :=
  let cs := (t.errorCounts.lookup key).getD []
  let cs' := bumpCount cs et
  let t' := { t with errorCounts := setEntry t.errorCounts key cs'
                     lastErrorTime := setEntry t.lastErrorTime key now }
  if countsSum cs' ≥ t.errorThreshold then
    { t' with circuitOpen := setEntry t'.circuitOpen key true }
  else t'

/-- `ErrorTracker.reset_circuit`: clear the error counts and close the
circuit (each only if the key is already present, as in the source). -/
def ErrorTracker.reset_circuit (t : ErrorTracker) (key : String) : ErrorTracker :=
  let t1 :=
    if (t.errorCounts.lookup key).isSome then
      { t with errorCounts := setEntry t.errorCounts key [] }
    else t
  if (t1.circuitOpen.lookup key).isSome then
    { t1 with circuitOpen := setEntry t1.circuitOpen key false }
  else t1

/-- `ErrorTracker.check_circuit`: returns whether the circuit is open; when
more than `reset_interval` has elapsed since the last error it auto-resets
and reports closed.  Returns the (possibly reset) tracker alongside. -/
def ErrorTracker.check_circuit (t : ErrorTracker) (key : String) (now : Nat) :
    Bool × ErrorTracker :=
  if ¬ t.openFlag key then (false, t)
  else
    match t.lastErrorTime.lookup key with
    | some last =>
      if now - last > t.resetInterval then (false, t.reset_circuit key)
      else (true, t)
    | none => (true, t)

/-! ### Retry wrapper (`error_handler.py`, `retry_with_backoff`)

A wrapped function call is modelled by the outcome of each invocation
(`behavior i` is what the `i`-th invocation does).  Backoff sleeping and
jitter only consume wall-clock time and are not modelled; the error
recorded against the circuit is the exception's type name, modelled as
the error string itself. -/

inductive Outcome (α : Type) where
  | success (v : α)
  | retryable (err : String)
  | fatal (err : String)
deriving Repr, DecidableEq

inductive RetryResult (α : Type) where
  | ok (v : α)
  | raisedRetryable (err : String)
  | raisedFatal (err : String)
  | circuitOpenError (key : String)
deriving Repr, DecidableEq

/-- The retry loop of `retry_with_backoff.decorator.wrapper`: invoke the
function; a success or non-retryable exception ends the loop at once, a
retryable exception consumes one unit of the retry budget (`retries + 1 >
max_retries` is exactly budget exhaustion).  Returns the result together
with the number of invocations performed. -/
def runAttempts {α : Type} (behavior : Nat → Outcome α) : Nat → Nat → RetryResult α × Nat
  | i, budget =>
    match behavior i with
    | .success v => (.ok v, 1)
    | .fatal e => (.raisedFatal e, 1)
    | .retryable e =>
      match budget with
      | 0 => (.raisedRetryable e, 1)
      | b + 1 =>
        let r := runAttempts behavior (i + 1) b
        (r.1, r.2 + 1)

/-- `resource_key = kwargs.pop('_resource_key', func.__name__)`. -/
def resolveResourceKey (explicitKey : Option String) (funcName : String) : String :=
  explicitKey.getD funcName

/-- The full wrapper: consult the circuit breaker for the resolved resource
key (failing fast with a `CircuitOpenException` when open, without invoking
the function), then run the retry loop; on exhaustion of retries or on a
non-retryable exception, record the error against the circuit and re-raise.
Returns (result, number of invocations of the wrapped function, tracker). -/
def retry_with_backoff {α : Type} (maxRetries : Nat) (explicitKey : Option String)
    (funcName : String) (behavior : Nat → Outcome α) (t : ErrorTracker) (now : Nat) :
    RetryResult α × Nat × ErrorTracker :=
  let key := resolveResourceKey explicitKey funcName
  let c := t.check_circuit key now
  if c.1 then (.circuitOpenError key, 0, c.2)
  else
    let r := runAttempts behavior 0 maxRetries
    match r.1 with
    | .raisedRetryable e => (r.1, r.2, c.2.record_error key e now)
    | .raisedFatal e => (r.1, r.2, c.2.record_error key e now)
    | _ => (r.1, r.2, c.2)

/-- Behaviour of a function that raises a retryable error on its first `k`
invocations and then succeeds with `v`. -/
def failsThen {α : Type} (k : Nat) (e : String) (v : α) : Nat → Outcome α :=
  fun i => if i < k then .retryable e else .success v

/-- A tracker whose circuit for `"verify_url"` is open: five recorded errors. -/
def openedTracker : ErrorTracker :=
  ((((ErrorTracker.init.record_error "verify_url" "ReadTimeout" 0).record_error
      "verify_url" "ReadTimeout" 0).record_error "verify_url" "ReadTimeout"
      0).record_error "verify_url" "ReadTimeout" 0).record_error
    "verify_url" "ReadTimeout" 0

/-! ### Staff scorer (`staff_extractor.py`)

Staff fields in the source are `None` or a non-empty string; Python
truthiness of a field is modelled by `Option String` (`none` falsy).
Confidence scores are floats whose every increment in the source is an
integer multiple of 0.5, so they are stored here exactly in half-point
units: the source's `+0.5` is `+1`, `+1` is `+2`, `+2` is `+4`, `+3` is
`+6`, and the filter threshold `confidence >= 2` is `>= 4`.  The scaling
is an order isomorphism, hence exact.  `role_category`/`priority` are
keys that `_validate_staff_member` adds; their defaults model the keys
being absent beforehand. -/

structure Staff where
  name : Option String
  title : Option String
  email : Option String
  phone : Option String
  photo_url : Option String
  confidence : Nat
  role_category : String := "general"
  priority : Nat := 0
deriving Repr, DecidableEq

/-- One step of the fill-missing-fields loop: if the kept record is missing
the field and the duplicate has it, take it and bump confidence by 0.5
(one half-point). -/
def fillField (cur new : Option String) : Option String × Nat :=
  match cur, new with
  | none, some v => (some v, 1)
  | c, _ => (c, 0)

/-- The else-branch of the name-duplicate merge in `_deduplicate_staff`:
for each of email, phone, title, photo_url, fill the existing record's
missing field from the duplicate, +0.5 confidence per filled field. -/
def mergeMissingFields (existing staff : Staff) : Staff :=
  let fe := fillField existing.email staff.email
  let fp := fillField existing.phone staff.phone
  let ft := fillField existing.title staff.title
  let fu := fillField existing.photo_url staff.photo_url
  { existing with
      email := fe.1
      phone := fp.1
      title := ft.1
      photo_url := fu.1
      confidence := existing.confidence + fe.2 + fp.2 + ft.2 + fu.2 }

/-- The in-place merge loop of `_deduplicate_staff` for a repeated name:
the first kept record with the same name is replaced outright when the new
record has strictly higher confidence, otherwise its missing fields are
filled from the new record. -/
def mergeByName : List Staff → Staff → List Staff
  | [], _ => []
  | ex :: rest, s =>
    if ex.name == s.name then
      (if s.confidence > ex.confidence then s else mergeMissingFields ex s) :: rest
    else ex :: mergeByName rest s

/-- `staff[f] and staff[f] in seen` for an optional field against a seen-set
(modelled as a list). -/
def truthyMem (v : Option String) (seen : List String) : Bool :=
  match v with
  | some x => seen.contains x
  | none => false

/-- `if staff[f]: seen.add(staff[f])`. -/
def addTruthy (v : Option String) (seen : List String) : List String :=
  match v with
  | some x => x :: seen
  | none => seen

/-- The loop of `StaffExtractor._deduplicate_staff`: a record whose email
was already seen is skipped outright; a record whose name was already seen
is merged into the kept record of that name; otherwise the record is kept
and its name/email are marked seen. -/
def dedupLoop : List Staff → List String → List String → List Staff → List Staff
  | [], _, _, uniq => uniq
  | s :: rest, seenNames, seenEmails, uniq =>
    if truthyMem s.email seenEmails then
      dedupLoop rest seenNames seenEmails uniq
    else if truthyMem s.name seenNames then
      dedupLoop rest seenNames seenEmails (mergeByName uniq s)
    else
      dedupLoop rest (addTruthy s.name seenNames) (addTruthy s.email seenEmails)
        (uniq ++ [s])

def _deduplicate_staff (staff : List Staff) : List Staff :=
  dedupLoop staff [] [] []

/-- A same-email pair where the lower-confidence record comes first:
1 point (= 2 half-points), email only, no phone/title. -/
def dupLow : Staff :=
  { name := some "Ann Alpha", title := none, email := some "a@dealer.com",
    phone := none, photo_url := none, confidence := 2 }

/-- The higher-confidence record with the same email: 3 points, with phone
and title. -/
def dupHigh : Staff :=
  { name := some "Bob Beta", title := some "Sales Manager",
    email := some "a@dealer.com", phone := some "2165551234",
    photo_url := none, confidence := 6 }

/-! ### Role categorization and final filtering (`staff_extractor.py`) -/

/-- Python substring containment `pat in s`. -/
def strContains (s pat : String) : Bool := decide (pat.data.IsInfix s.data)

/-- `str.lower()` (ASCII titles in this data). -/
def lowerStr (s : String) : String := ⟨s.data.map Char.toLower⟩

def managementKeywords : List String :=
  ["president", "ceo", "cfo", "coo", "owner", "partner",
   "general manager", "gm", "director", "executive", "principal",
   "vp", "vice president", "chief", "head", "founder"]

def salesKeywords : List String :=
  ["sales", "salesperson", "salesman", "saleswoman", "lease",
   "finance", "f&i", "business manager", "internet sales"]

def serviceKeywords : List String :=
  ["service", "technician", "mechanic", "parts", "maintenance",
   "advisor", "repair", "warranty"]

/-- `StaffExtractor._validate_staff_member`: categorize the role from title
keywords (management > sales > service > general) and assign priority
3/2/1/0; all other fields, confidence included, are copied unchanged. -/
def _validate_staff_member (m : Staff) : Staff :=
  let cat : String :=
    match m.title with
    | some title =>
      let t := lowerStr title
      if managementKeywords.any (fun k => strContains t k) then "management"
      else if salesKeywords.any (fun k => strContains t k) then "sales"
      else if serviceKeywords.any (fun k => strContains t k) then "service"
      else "general"
    | none => "general"
  let pr : Nat :=
    if cat == "management" then 3
    else if cat == "sales" then 2
    else if cat == "service" then 1
    else 0
  { m with role_category := cat, priority := pr }

/-- Stable insertion into a descending-by-confidence list (the earlier
element of the input goes before later elements of equal confidence). -/
def insertByConfidence (s : Staff) : List Staff → List Staff
  | [] => [s]
  | t :: rest =>
    if s.confidence ≥ t.confidence then s :: t :: rest
    else t :: insertByConfidence s rest

/-- `sorted(staff_members, key=lambda x: x['confidence'], reverse=True)`:
Python's sort is stable, and a stable sort by a key is extensionally
unique, realised here as stable insertion sort. -/
def sortByConfidence : List Staff → List Staff
  | [] => []
  | s :: rest => insertByConfidence s (sortByConfidence rest)

/-- `StaffExtractor._filter_and_limit_staff`: sort by confidence
descending, keep only confidence ≥ 2 points (4 half-points), validate
(role categorization), cap at 20. -/
def _filter_and_limit_staff (staff : List Staff) : List Staff :=
  let sortedStaff := sortByConfidence staff
  let filtered := sortedStaff.filter (fun s => s.confidence ≥ 4)
  let validated := filtered.map _validate_staff_member
  validated.take 20

/-- A candidate scoring 1.5 points (2 half... 3 half-points): simple name
match (+1 point) plus inferred title (+0.5): below the 2-point bar. -/
def weakCandidate : Staff :=
  { name := some "Cara Gamma", title := some "Advisor", email := none,
    phone := none, photo_url := none, confidence := 3 }

/-- A candidate scoring 3 points, above the bar. -/
def strongCandidate : Staff :=
  { name := some "Dan Delta", title := some "Service Manager", email := none,
    phone := some "2165550000", photo_url := none, confidence := 6 }

/-! ### Phone normalizer (`staff_extractor.py`, `_format_phone_number`)

The function takes either a raw string or a regex tuple
`(area_code, exchange, line)`; a tuple of another arity falls through to
the raw-join branch.  Characters are handled on `String.data` (`List
Char`): `re.sub(r'[^0-9]', '', s)` is a digit filter, `digits[1:]` is
`drop 1`, `digits[-10:]` is `drop (length - 10)`. -/

inductive PhoneInput where
  | str (s : String)
  | tup3 (areaCode exchange line : String)
  | tupOther (parts : List String)
deriving Repr, DecidableEq

/-- `digits[-10:]`: the last 10 characters. -/
def lastTen (l : List Char) : List Char := l.drop (l.length - 10)

/-- The tail of the tuple branch:
`raw = ''.join(tuple); return raw[-10:] if len(raw) >= 10 else None`. -/
def rawJoinFallback (raw : List Char) : Option String :=
  if raw.length ≥ 10 then some ⟨lastTen raw⟩ else none

def _format_phone_number : PhoneInput → Option String
  | .str s =>
    let digits := s.data.filter (fun c => c.isDigit)
    if digits.length ≥ 10 then
      if digits.length == 10 then some ⟨digits⟩
      else if digits.length == 11 && digits.take 1 == ['1'] then some ⟨digits.drop 1⟩
      else some ⟨lastTen digits⟩
    else none
  | .tup3 a b c =>
    if a.data.isEmpty && !b.data.isEmpty && !c.data.isEmpty &&
        b.data.length == 3 && c.data.length == 4 then
      some ⟨b.data ++ c.data⟩
    else if !a.data.isEmpty && !b.data.isEmpty && !c.data.isEmpty then
      some ⟨a.data ++ b.data ++ c.data⟩
    else
      rawJoinFallback (a.data ++ b.data ++ c.data)
  | .tupOther parts =>
    rawJoinFallback (parts.map String.data).flatten

/-! ### Hybrid Extraction Coordinator (`hybrid_extractor.py`)

`HybridContactExtractor.extract_contacts`: each backend call is modelled
by its outcome (the returned contact dictionary, or the exception it
raised).  Python's `list(set(a + b))` produces a list whose membership is
the set union of `a` and `b` in an unspecified order; it is modelled as
`(a ++ b).dedup`, one faithful representative with exactly that
membership. -/

structure ContactResult where
  emails : List String
  phones : List String
  address : Option String
deriving Repr, DecidableEq

inductive BackendOutcome where
  | ok (r : ContactResult)
  | raised (e : String)
deriving Repr, DecidableEq

structure HybridResult where
  emails : List String
  phones : List String
  address : Option String
  method_used : String
deriving Repr, DecidableEq

inductive FallbackMode where
  | auto
  | onFailure
  | always
deriving Repr, DecidableEq

/-- `HybridContactExtractor.extract_contacts`: try Selenium; on success
evaluate completeness (has emails and phones and address) and, under mode
`auto`, escalate to Firecrawl when incomplete (always under mode `always`,
never under `on_failure`); on Selenium failure always escalate.  Merging:
emails and phones are set-unions, the address is Selenium's unless missing
and Firecrawl supplies one, and `method_used` reflects which backends
succeeded (`hybrid` when both did). -/
def extract_contacts (mode : FallbackMode) (selenium firecrawl : BackendOutcome) :
    HybridResult :=
  match selenium with
  | .ok sr =>
    let hasEmails := decide (0 < sr.emails.length)
    let hasPhones := decide (0 < sr.phones.length)
    let hasAddress := sr.address.isSome
    let needsFallback :=
      match mode with
      | .always => true
      | .auto => !(hasEmails && hasPhones && hasAddress)
      | .onFailure => false
    if !needsFallback then
      { emails := sr.emails, phones := sr.phones, address := sr.address
        method_used := "selenium" }
    else
      match firecrawl with
      | .ok fr =>
        { emails := (sr.emails ++ fr.emails).dedup
          phones := (sr.phones ++ fr.phones).dedup
          address :=
            if sr.address.isNone && fr.address.isSome then fr.address
            else sr.address
          method_used := "hybrid" }
      | .raised _ =>
        { emails := sr.emails, phones := sr.phones, address := sr.address
          method_used := "selenium" }
  | .raised _ =>
    match firecrawl with
    | .ok fr =>
      { emails := fr.emails.dedup
        phones := fr.phones.dedup
        address := if fr.address.isSome then fr.address else none
        method_used := "firecrawl" }
    | .raised _ =>
      { emails := [], phones := [], address := none, method_used := "failed" }

/-- Concrete Selenium result: emails and phones but no address. -/
def srIncomplete : ContactResult :=
  { emails := ["sales@dealer.com"], phones := ["2165551234"], address := none }

/-- Concrete Firecrawl result supplying an address and an extra email. -/
def frWithAddress : ContactResult :=
  { emails := ["info@dealer.com", "sales@dealer.com"], phones := ["2165559999"]
    address := some "100 Main St, Cleveland, OH 44113" }

/-! ### Manufacturer classification (`verify_all_dealerships.py`,
`DealershipVerifier.identify_manufacturer`)

`fuzz.ratio` comes from the external `fuzzywuzzy` library; it is modelled
as an oracle parameter `ratio : String → String → Nat` (the source applies
it as `fuzz.ratio(keyword, name)`). -/

/-- `self.manufacturer_data` as loaded in `DealershipVerifier.__init__`. -/
def manufacturerTable : List (String × List String) :=
  [("Toyota", ["toyota", "lexus"]),
   ("Ford", ["ford", "lincoln"]),
   ("GM", ["chevrolet", "chevy", "gmc", "buick", "cadillac"]),
   ("Honda", ["honda", "acura"]),
   ("BMW", ["bmw", "mini"]),
   ("Mercedes", ["mercedes", "benz"]),
   ("Hyundai", ["hyundai", "genesis"]),
   ("Kia", ["kia"]),
   ("Stellantis", ["chrysler", "dodge", "jeep", "ram", "fiat"]),
   ("VW", ["volkswagen", "vw", "audi", "porsche"]),
   ("Nissan", ["nissan", "infiniti"]),
   ("Mazda", ["mazda"]),
   ("Subaru", ["subaru"]),
   ("Volvo", ["volvo"]),
   ("Jaguar Land Rover", ["jaguar", "land rover"]),
   ("Tesla", ["tesla"])]

/-- The direct-match loop: the first manufacturer one of whose keywords is a
substring of the lowercased name or URL. -/
def directMatch (table : List (String × List String)) (name url : String) :
    Option String :=
  (table.find? (fun p =>
    p.2.any (fun k => strContains name k || strContains url k))).map Prod.fst

/-- All (manufacturer, keyword) pairs in scan order. -/
def kwPairs (table : List (String × List String)) : List (String × String) :=
  (table.map (fun p => p.2.map (fun k => (p.1, k)))).flatten

/-- One iteration of the fuzzy loop:
`if ratio > highest_ratio and ratio > 80: highest_ratio, best_match = ratio, manufacturer`. -/
def fuzzyStep (ratio : String → String → Nat) (name : String)
    (acc : Option String × Nat) (p : String × String) : Option String × Nat :=
  let r := ratio p.2 name
  if acc.2 < r ∧ 80 < r then (some p.1, r) else acc

/-- `DealershipVerifier.identify_manufacturer`: lowercase the name and URL,
return the first direct keyword match; otherwise scan all keywords keeping
the best fuzzy ratio that is strictly above 80; default `"Other"`. -/
def identify_manufacturer (ratio : String → String → Nat)
    (table : List (String × List String)) (dealershipName website : String) :
    String :=
  let name := lowerStr dealershipName
  let url := lowerStr website
  match directMatch table name url with
  | some m => m
  | none =>
    match ((kwPairs table).foldl (fuzzyStep ratio name) (none, 0)).1 with
    | some m => m
    | none => "Other"

/-- A ratio oracle giving exactly 80 on one (keyword, name) pair and 0
elsewhere; real `fuzz.ratio` attains exactly 80 (e.g. 2·M/(len₁+len₂) =
0.8 rounded), so this models an attainable boundary case. -/
def ratioStub : String → String → Nat :=
  fun k n => if k == "toyota" && n == "zzz motors llc" then 80 else 0

/-- Witness for the amended C8: `"Best Toyota"` direct-matches `"Toyota"`;
and with no exact match, a stub ratio of 90 on the `"honda"` keyword (all
others 0) classifies `"Hondo Autos"`... the ratio oracle below gives
`"Honda"`. -/
def ratioStub90 : String → String → Nat :=
  fun k n => if k == "honda" && n == "hondo autos" then 90 else 0

/-! ### Batch orchestrator (`verify_all_dealerships.py`,
`DealershipVerifier.process_batch` / `verify_url`)

Network effects are oracles: `verifyAttempt i` is what the `i`-th
invocation of the decorator-wrapped `verify_url` body does (its internals
— HEAD/GET, redirects — are behind the network boundary; transient
request errors such as timeouts and connection-refused are classified
recoverable by `handle_network_error` and re-raised to the decorator,
which retries them as `requests.RequestException` members).  `scrape` is
the outcome of the whole `scrape_contacts` call when reached.  Note the
call `self.verify_url(url, resource_key=domain)` does NOT pass the
decorator's `_resource_key` keyword, so the decorator's own circuit key
defaults to the function name `"verify_url"`; `resource_key` only feeds
the body, which is behind the oracle. -/

/-- `str.strip()`: trim whitespace at both ends. -/
def trimChars (l : List Char) : List Char :=
  ((l.dropWhile Char.isWhitespace).reverse.dropWhile Char.isWhitespace).reverse

/-- `DealershipVerifier.clean_url`: empty stays empty; otherwise strip,
lowercase, and default to an `https://` scheme. -/
def clean_url (url : String) : String :=
  if url.data.isEmpty then "" else
  let u := (trimChars url.data).map Char.toLower
  if "http://".data.isPrefixOf u || "https://".data.isPrefixOf u then ⟨u⟩
  else ⟨"https://".data ++ u⟩

/-- Scan for the `"://"` marker. -/
def afterScheme : List Char → Option (List Char)
  | ':' :: '/' :: '/' :: rest => some rest
  | _ :: rest => afterScheme rest
  | [] => none

/-- `urlparse(url).netloc`: the part between the scheme marker and the next
slash. -/
def urlNetloc (url : String) : String :=
  match afterScheme url.data with
  | some rest => ⟨rest.takeWhile (fun c => c ≠ '/')⟩
  | none => ""

structure BatchRow where
  dealershipName : String
  website : String
deriving Repr, DecidableEq

structure ResultRecord where
  dealershipName : String
  website : String
  isActive : Bool
  finalUrl : String
  manufacturer : String
  contacts : List String
deriving Repr, DecidableEq

structure FailureRecord where
  dealershipName : String
  website : String
  error : String
deriving Repr, DecidableEq

structure BatchState where
  totalProcessed : Nat
  activeWebsites : Nat
  manufacturerCounts : List (String × Nat)
  results : List ResultRecord
  failedInBatch : List FailureRecord
  tracker : ErrorTracker
deriving Repr, DecidableEq

inductive ScrapeOutcome where
  | ok (contacts : List String)
  | circuitOpenExc
  | err (e : String)
deriving Repr, DecidableEq

/-- What the network does for one record. -/
structure RecordOracle where
  verifyAttempt : Nat → Outcome (Bool × Option String)
  scrape : ScrapeOutcome

/-- `@retry_with_backoff(max_retries=3, initial_backoff=1, max_backoff=15)`
on `verify_url`. -/
def verifyMaxRetries : Nat := 3

/-- The post-verification part of a successfully returning record:
bump the active count and scrape when live (scraping failures of any kind
are swallowed into an empty contact list), classify the manufacturer
regardless of liveness, tally it, append the result record, and count the
record as processed. -/
def recordSuccessPath (ratio : String → String → Nat) (row : BatchRow)
    (oracle : RecordOracle) (url : String) (isActive : Bool)
    (finalUrl : Option String) (tr : ErrorTracker) (st : BatchState) : BatchState :=
  let contacts :=
    if isActive then
      match oracle.scrape with
      | .ok c => c
      | .circuitOpenExc => []
      | .err _ => []
    else []
  let manufacturer :=
    identify_manufacturer ratio manufacturerTable row.dealershipName row.website
  { totalProcessed := st.totalProcessed + 1
    activeWebsites := st.activeWebsites + (if isActive then 1 else 0)
    manufacturerCounts := bumpCount st.manufacturerCounts manufacturer
    results := st.results ++
      [{ dealershipName := row.dealershipName, website := url
         isActive := isActive, finalUrl := finalUrl.getD url
         manufacturer := manufacturer, contacts := contacts }]
    failedInBatch := st.failedInBatch
    tracker := tr }

/-- One iteration of the `process_batch` loop: check the domain's circuit
(an open circuit short-circuits to an inactive record with no verification
call), otherwise verify through the retry wrapper; an exception escaping it
is caught and turned into a failure record, with no result record and no
processed-count increment. -/
def processRecord (ratio : String → String → Nat) (now : Nat) (st : BatchState)
    (rowOracle : BatchRow × RecordOracle) : BatchState :=
  let row := rowOracle.1
  let oracle := rowOracle.2
  let url := clean_url row.website
  let domain := urlNetloc url
  let chk := st.tracker.check_circuit domain now
  if chk.1 then
    recordSuccessPath ratio row oracle url false none chk.2 st
  else
    let vres := retry_with_backoff verifyMaxRetries none "verify_url"
      oracle.verifyAttempt chk.2 now
    match vres.1 with
    | .ok av => recordSuccessPath ratio row oracle url av.1 av.2 vres.2.2 st
    | .raisedRetryable e =>
      { st with
          failedInBatch := st.failedInBatch ++
            [{ dealershipName := row.dealershipName, website := row.website
               error := e }]
          tracker := vres.2.2 }
    | .raisedFatal e =>
      { st with
          failedInBatch := st.failedInBatch ++
            [{ dealershipName := row.dealershipName, website := row.website
               error := e }]
          tracker := vres.2.2 }
    | .circuitOpenError k =>
      { st with
          failedInBatch := st.failedInBatch ++
            [{ dealershipName := row.dealershipName, website := row.website
               error := "Circuit open for " ++ k }]
          tracker := vres.2.2 }

def process_batch (ratio : String → String → Nat)
    (rows : List (BatchRow × RecordOracle)) (now : Nat) (st : BatchState) :
    BatchState :=
  rows.foldl (processRecord ratio now) st

def initialBatchState : BatchState :=
  { totalProcessed := 0, activeWebsites := 0, manufacturerCounts := []
    results := [], failedInBatch := [], tracker := ErrorTracker.init }

/-- A ratio oracle never reaching the fuzzy bar (irrelevant to the
scenario: the live record direct-matches). -/
def ratioZero : String → String → Nat := fun _ _ => 0

/-- Scenario target 1: live, complete data. -/
def liveRow : BatchRow × RecordOracle :=
  (⟨"Best Toyota", "https://dealer-one.example"⟩,
   { verifyAttempt := fun _ => .success (true, some "https://dealer-one.example/")
     scrape := .ok ["email:sales@dealer-one.example", "phone:2165551234",
       "address:1 Main St, Cleveland, OH 44113"] })

/-- Scenario target 2: every backend attempt times out. -/
def timeoutRow : BatchRow × RecordOracle :=
  (⟨"Central Ford", "https://dealer-two.example"⟩,
   { verifyAttempt := fun _ => .retryable "ReadTimeout", scrape := .ok [] })

/-- Scenario target 3: unreachable, connection refused on every attempt. -/
def refusedRow : BatchRow × RecordOracle :=
  (⟨"Alpine Honda", "https://dealer-three.example"⟩,
   { verifyAttempt := fun _ => .retryable "ConnectionError", scrape := .ok [] })

/-! ### Theorems -/

theorem lookup_setEntry_self {α : Type} (m : List (String × α)) (k : String) (v : α) :
    (setEntry m k v).lookup k = some v := by
  induction m with
  | nil => simp [setEntry, List.lookup]
  | cons p rest ih =>
    by_cases h : p.1 = k
    · simp [setEntry, h, List.lookup]
    · have hb : (p.1 == k) = false := by simp [h]
      have hb' : (k == p.1) = false := by
        simp [beq_iff_eq]
        exact fun he => h he.symm
      simp [setEntry, hb, List.lookup, hb', ih]

theorem lookup_setEntry_ne {α : Type} (m : List (String × α)) (k k' : String) (v : α)
    (h : k' ≠ k) : (setEntry m k v).lookup k' = m.lookup k' := by
  induction m with
  | nil => simp [setEntry, List.lookup, beq_eq_false_iff_ne.mpr h]
  | cons p rest ih =>
    by_cases hp : p.1 = k
    · have hb : (p.1 == k) = true := by simp [hp]
      have hk' : (k' == p.1) = false := by
        simp [beq_iff_eq, hp]
        exact h
      simp [setEntry, hb, List.lookup, hk']
    · have hb : (p.1 == k) = false := by simp [hp]
      simp [setEntry, hb, List.lookup, ih]

theorem runAttempts_failsThen {α : Type} (k : Nat) (e : String) (v : α) :
    ∀ (budget i : Nat),
      runAttempts (failsThen k e v) i budget =
        if k - i ≤ budget then (.ok v, (k - i) + 1)
        else (.raisedRetryable e, budget + 1) := by
  intro budget
  induction budget with
  | zero =>
    intro i
    by_cases h : i < k
    · have hk : ¬ (k - i ≤ 0) := by omega
      simp [runAttempts, failsThen, h, hk]
    · have hk : k - i = 0 := by omega
      simp [runAttempts, failsThen, h, hk]
  | succ b ih =>
    intro i
    by_cases h : i < k
    · have := ih (i + 1)
      by_cases hle : k - i ≤ b + 1
      · have hle' : k - (i + 1) ≤ b := by omega
        have harith : k - (i + 1) + 1 = k - i := by omega
        simp [runAttempts, failsThen, h, this, hle', hle, harith]
      · have hle' : ¬ (k - (i + 1) ≤ b) := by omega
        simp [runAttempts, failsThen, h, this, hle', hle]
    · have hk : k - i = 0 := by omega
      simp [runAttempts, failsThen, h, hk]

/-- C1.  Faithful retry semantics: a function failing transiently `k` times
then succeeding returns the success value after exactly `k+1` invocations
when `k ≤ max_retries` (tracker unchanged — nothing recorded); when
`max_retries < k` the wrapper re-raises after exactly `max_retries + 1`
invocations and records the error against the resource's circuit exactly
at that exhaustion point. -/
theorem retry_fails_then_succeeds {α : Type} (k maxRetries : Nat) (e : String) (v : α)
    (explicitKey : Option String) (funcName : String) (t : ErrorTracker) (now : Nat)
    (hclosed : (t.check_circuit (resolveResourceKey explicitKey funcName) now).1 = false) :
    (k ≤ maxRetries →
      retry_with_backoff maxRetries explicitKey funcName (failsThen k e v) t now =
        (.ok v, k + 1,
          (t.check_circuit (resolveResourceKey explicitKey funcName) now).2)) ∧
    (maxRetries < k →
      retry_with_backoff maxRetries explicitKey funcName (failsThen k e v) t now =
        (.raisedRetryable e, maxRetries + 1,
          ((t.check_circuit (resolveResourceKey explicitKey funcName) now).2).record_error
            (resolveResourceKey explicitKey funcName) e now)) := by
  constructor
  · intro hk
    have hrun := runAttempts_failsThen k e v maxRetries 0
    have hle : k ≤ maxRetries := by omega
    simp [hle] at hrun
    simp [retry_with_backoff, hclosed, hrun]
  · intro hk
    have hrun := runAttempts_failsThen k e v maxRetries 0
    have hle : ¬ (k ≤ maxRetries) := by omega
    simp [hle] at hrun
    simp [retry_with_backoff, hclosed, hrun]

/-- Witness for C1: with `k = 2` failures and `max_retries = 3` the wrapper
returns the success value after 3 invocations of the wrapped function;
with `max_retries = 1 < k = 2` it re-raises after 2 invocations having
recorded the error. -/
theorem retry_fails_then_succeeds_witness :
    retry_with_backoff 3 none "verify_url" (failsThen 2 "ReadTimeout" 42)
        ErrorTracker.init 0 =
      (.ok 42, 3, ErrorTracker.init) ∧
    retry_with_backoff 1 none "verify_url" (failsThen 2 "ReadTimeout" 42)
        ErrorTracker.init 0 =
      (.raisedRetryable "ReadTimeout", 2,
        ErrorTracker.init.record_error "verify_url" "ReadTimeout" 0) := by
  have h1 := (retry_fails_then_succeeds 2 3 "ReadTimeout" 42 none "verify_url"
    ErrorTracker.init 0 (by decide)).1 (by decide)
  have h2 := (retry_fails_then_succeeds 2 1 "ReadTimeout" 42 none "verify_url"
    ErrorTracker.init 0 (by decide)).2 (by decide)
  constructor
  · rw [h1]; rfl
  · rw [h2]; rfl

/-! ### Circuit-breaker lemmas -/

theorem countsSum_bump (cs : ErrCounts) (et : String) :
    countsSum (bumpCount cs et) = countsSum cs + 1 := by
  induction cs with
  | nil => simp [bumpCount, setEntry, countsSum, List.lookup]
  | cons p rest ih =>
    by_cases h : p.1 = et
    · have hb : (et == p.1) = true := by simp [h]
      have hb' : (p.1 == et) = true := by simp [h]
      simp [bumpCount, setEntry, countsSum, List.lookup, hb, hb']
      omega
    · have hb : (et == p.1) = false := by
        simp [beq_iff_eq]; exact fun he => h he.symm
      have hb' : (p.1 == et) = false := by simp [h]
      simp only [bumpCount, List.lookup, hb, setEntry, hb', if_false]
      simp only [bumpCount] at ih
      simp [countsSum] at ih ⊢
      omega

theorem record_error_totalErrors (t : ErrorTracker) (key et : String) (now : Nat) :
    (t.record_error key et now).totalErrors key = t.totalErrors key + 1 := by
  by_cases h : t.errorThreshold ≤ countsSum ((t.errorCounts.lookup key).getD []) + 1 <;>
    simp [ErrorTracker.record_error, ErrorTracker.totalErrors, h,
      lookup_setEntry_self, countsSum_bump]

theorem record_error_lastErrorTime (t : ErrorTracker) (key et : String) (now : Nat) :
    (t.record_error key et now).lastErrorTime.lookup key = some now := by
  by_cases h : t.errorThreshold ≤ countsSum ((t.errorCounts.lookup key).getD []) + 1 <;>
    simp [ErrorTracker.record_error, h, lookup_setEntry_self, countsSum_bump]

theorem record_error_resetInterval (t : ErrorTracker) (key et : String) (now : Nat) :
    (t.record_error key et now).resetInterval = t.resetInterval := by
  by_cases h : t.errorThreshold ≤ countsSum ((t.errorCounts.lookup key).getD []) + 1 <;>
    simp [ErrorTracker.record_error, h, countsSum_bump]

theorem record_error_opens (t : ErrorTracker) (key et : String) (now : Nat)
    (h : (t.record_error key et now).totalErrors key ≥ t.errorThreshold) :
    (t.record_error key et now).openFlag key = true := by
  have htot := record_error_totalErrors t key et now
  have hdef : t.totalErrors key = countsSum ((t.errorCounts.lookup key).getD []) := rfl
  by_cases hc : t.errorThreshold ≤ countsSum ((t.errorCounts.lookup key).getD []) + 1
  · simp [ErrorTracker.record_error, hc, ErrorTracker.openFlag,
      lookup_setEntry_self, countsSum_bump]
  · exfalso; apply hc; omega

theorem reset_circuit_totalErrors (t : ErrorTracker) (key : String) :
    (t.reset_circuit key).totalErrors key = 0 := by
  unfold ErrorTracker.reset_circuit ErrorTracker.totalErrors
  cases hE : t.errorCounts.lookup key <;>
    cases hO : t.circuitOpen.lookup key <;>
      simp [hE, hO, lookup_setEntry_self, countsSum]

theorem reset_circuit_openFlag (t : ErrorTracker) (key : String) :
    (t.reset_circuit key).openFlag key = false := by
  unfold ErrorTracker.reset_circuit ErrorTracker.openFlag
  cases hE : t.errorCounts.lookup key <;>
    cases hO : t.circuitOpen.lookup key <;>
      simp [hE, hO, lookup_setEntry_self]

/-- C2.  The circuit-breaker invariant: when a `record_error` call brings the
total error count for a resource (summed over all error types) up to the
threshold, the circuit is open and `check_circuit` reports it open for as
long as at most `reset_interval` has elapsed since that last error; once
strictly more than `reset_interval` has elapsed, the very next
`check_circuit` call auto-resets the circuit (error counts cleared, flag
closed) and returns `false`, and a subsequent error accumulates again from
zero (the first new error yields a total of exactly 1). -/
theorem circuit_opens_then_auto_resets (t : ErrorTracker) (key et et2 : String)
    (now now2 now3 : Nat)
    (h5 : (t.record_error key et now).totalErrors key ≥ t.errorThreshold) :
    (now2 - now ≤ t.resetInterval →
      (t.record_error key et now).check_circuit key now2 =
        (true, t.record_error key et now)) ∧
    (now2 - now > t.resetInterval →
      ((t.record_error key et now).check_circuit key now2).1 = false ∧
      (((t.record_error key et now).check_circuit key now2).2).totalErrors key = 0 ∧
      (((t.record_error key et now).check_circuit key now2).2).openFlag key = false ∧
      ((((t.record_error key et now).check_circuit key now2).2).record_error
          key et2 now3).totalErrors key = 1) := by
  have hflag := record_error_opens t key et now h5
  have hlast := record_error_lastErrorTime t key et now
  have hri := record_error_resetInterval t key et now
  constructor
  · intro hle
    have hgt : ¬ (now2 - now > (t.record_error key et now).resetInterval) := by
      rw [hri]; omega
    simp [ErrorTracker.check_circuit, hflag, hlast, hgt]
  · intro hgt
    have hgt' : now2 - now > (t.record_error key et now).resetInterval := by
      rw [hri]; omega
    have hchk : (t.record_error key et now).check_circuit key now2 =
        (false, (t.record_error key et now).reset_circuit key) := by
      simp [ErrorTracker.check_circuit, hflag, hlast, hgt']
    rw [hchk]
    refine ⟨rfl, reset_circuit_totalErrors _ key, reset_circuit_openFlag _ key, ?_⟩
    rw [record_error_totalErrors, reset_circuit_totalErrors]

/-- Witness for C2: five errors recorded for one resource at time 0 open the
circuit; a check at time 100 (within the 300 s window) reports open, a check
at time 301 resets and reports closed, and the next error re-accumulates
from zero. -/
theorem circuit_opens_then_auto_resets_witness :
    (let t4 := ((((ErrorTracker.init.record_error "d.com" "Timeout" 0).record_error
        "d.com" "Timeout" 0).record_error "d.com" "Timeout" 0).record_error
        "d.com" "ConnectionError" 0)
    ((t4.record_error "d.com" "Timeout" 0).check_circuit "d.com" 100).1 = true ∧
    ((t4.record_error "d.com" "Timeout" 0).check_circuit "d.com" 301).1 = false ∧
    (((t4.record_error "d.com" "Timeout" 0).check_circuit "d.com" 301).2).totalErrors
        "d.com" = 0 ∧
    ((((t4.record_error "d.com" "Timeout" 0).check_circuit "d.com" 301).2).record_error
        "d.com" "Timeout" 400).totalErrors "d.com" = 1) := by
  have h := circuit_opens_then_auto_resets
    ((((ErrorTracker.init.record_error "d.com" "Timeout" 0).record_error
        "d.com" "Timeout" 0).record_error "d.com" "Timeout" 0).record_error
        "d.com" "ConnectionError" 0)
    "d.com" "Timeout" "Timeout" 0 100 400 (by decide)
  have h' := circuit_opens_then_auto_resets
    ((((ErrorTracker.init.record_error "d.com" "Timeout" 0).record_error
        "d.com" "Timeout" 0).record_error "d.com" "Timeout" 0).record_error
        "d.com" "ConnectionError" 0)
    "d.com" "Timeout" "Timeout" 0 301 400 (by decide)
  have h1 := h.1 (by decide)
  have h2 := h'.2 (by decide)
  exact ⟨by rw [h1], h2.1, h2.2.1, h2.2.2.2⟩

/-- C6.  Fail-fast on an open circuit: whenever `check_circuit` reports the
wrapped call's resource key open, the wrapper raises the distinct
`CircuitOpenException` (a constructor different from any wrapped-operation
outcome) and the wrapped function is invoked zero times. -/
theorem retry_circuit_open_fails_fast {α : Type} (maxRetries : Nat)
    (explicitKey : Option String) (funcName : String) (behavior : Nat → Outcome α)
    (t : ErrorTracker) (now : Nat)
    (hopen : (t.check_circuit (resolveResourceKey explicitKey funcName) now).1 = true) :
    retry_with_backoff maxRetries explicitKey funcName behavior t now =
      (.circuitOpenError (resolveResourceKey explicitKey funcName), 0,
        (t.check_circuit (resolveResourceKey explicitKey funcName) now).2) ∧
    (∀ e v, RetryResult.circuitOpenError (α := α)
          (resolveResourceKey explicitKey funcName) ≠ .raisedRetryable e ∧
        RetryResult.circuitOpenError (α := α)
          (resolveResourceKey explicitKey funcName) ≠ .raisedFatal e ∧
        RetryResult.circuitOpenError (α := α)
          (resolveResourceKey explicitKey funcName) ≠ .ok v) := by
  constructor
  · simp [retry_with_backoff, hopen]
  · intro e v
    refine ⟨?_, ?_, ?_⟩ <;> intro hcontra <;> cases hcontra

/-- Witness for C6: against `openedTracker` a call keyed (by default) to
`"verify_url"` fails fast with the circuit-open error and zero invocations,
even though its behaviour would succeed immediately if invoked. -/
theorem retry_circuit_open_fails_fast_witness :
    (retry_with_backoff 3 none "verify_url" (failsThen 0 "E" 7)
        openedTracker 10).1 = .circuitOpenError "verify_url" ∧
    (retry_with_backoff 3 none "verify_url" (failsThen 0 "E" 7)
        openedTracker 10).2.1 = 0 := by
  have h := (retry_circuit_open_fails_fast 3 none "verify_url" (failsThen 0 "E" 7)
    openedTracker 10 (by decide)).1
  refine ⟨?_, ?_⟩ <;> rw [h] <;> try rfl

theorem check_circuit_closed (t : ErrorTracker) (key : String) (now : Nat)
    (h : t.openFlag key = false) : t.check_circuit key now = (false, t) := by
  simp [ErrorTracker.check_circuit, h]

theorem record_error_errorThreshold (t : ErrorTracker) (key et : String) (now : Nat) :
    (t.record_error key et now).errorThreshold = t.errorThreshold := by
  by_cases h : t.errorThreshold ≤ countsSum ((t.errorCounts.lookup key).getD []) + 1 <;>
    simp [ErrorTracker.record_error, h, countsSum_bump]

theorem record_error_openFlag_low (t : ErrorTracker) (key et : String) (now : Nat)
    (h : (t.record_error key et now).totalErrors key < t.errorThreshold) :
    (t.record_error key et now).openFlag key = t.openFlag key := by
  have htot := record_error_totalErrors t key et now
  have hdef : t.totalErrors key = countsSum ((t.errorCounts.lookup key).getD []) := rfl
  by_cases hc : t.errorThreshold ≤ countsSum ((t.errorCounts.lookup key).getD []) + 1
  · exfalso; omega
  · simp [ErrorTracker.record_error, hc, countsSum_bump, ErrorTracker.openFlag]

theorem runAttempts_all_retryable {α : Type} (behavior : Nat → Outcome α) (e : String)
    (hbeh : ∀ j, behavior j = .retryable e) :
    ∀ (budget i : Nat), runAttempts behavior i budget = (.raisedRetryable e, budget + 1) := by
  intro budget
  induction budget with
  | zero => intro i; simp [runAttempts, hbeh i]
  | succ b ih => intro i; simp [runAttempts, hbeh i, ih (i + 1)]

/-- An exhausted retryable call through a closed circuit records exactly one
error against the resolved resource key. -/
theorem retry_exhausted_records_once {α : Type} (maxRetries : Nat) (f : String)
    (behavior : Nat → Outcome α) (e : String) (hbeh : ∀ j, behavior j = .retryable e)
    (t : ErrorTracker) (now : Nat) (hflag : t.openFlag f = false) :
    retry_with_backoff maxRetries none f behavior t now =
      (.raisedRetryable e, maxRetries + 1, t.record_error f e now) := by
  have hchk : t.check_circuit f now = (false, t) := check_circuit_closed t f now hflag
  have hrun := runAttempts_all_retryable behavior e hbeh maxRetries 0
  simp [retry_with_backoff, resolveResourceKey, hchk, hrun]

/-- One exhausted call against a closed, below-threshold circuit: the total
goes up by one and the circuit stays closed. -/
theorem record_step_facts (t : ErrorTracker) (f e : String) (now : Nat)
    (hlt : t.totalErrors f + 1 < t.errorThreshold) (hflag : t.openFlag f = false) :
    (t.record_error f e now).totalErrors f = t.totalErrors f + 1 ∧
    (t.record_error f e now).openFlag f = false ∧
    (t.record_error f e now).errorThreshold = t.errorThreshold ∧
    (t.record_error f e now).resetInterval = t.resetInterval := by
  refine ⟨record_error_totalErrors t f e now, ?_,
    record_error_errorThreshold t f e now, record_error_resetInterval t f e now⟩
  have h := record_error_openFlag_low t f e now
    (by rw [record_error_totalErrors]; omega)
  rw [h, hflag]

/-- C10.  When no explicit `_resource_key` is passed, the wrapper keys the
circuit breaker by the wrapped function's name: exhausted failures against
five different targets (each with its own error text) all accumulate in the
one circuit for that function name, reaching the default threshold of 5,
after which a call against any sixth target fails fast with the
circuit-open error and zero invocations. -/
theorem default_key_shared_circuit (f : String) (errOf : String → String)
    (behaviorOf : String → Nat → Outcome Unit)
    (hb : ∀ u j, behaviorOf u j = .retryable (errOf u))
    (u1 u2 u3 u4 u5 u6 : String) (m1 m2 m3 m4 m5 m6 : Nat) (now now2 : Nat)
    (helapsed : now2 - now ≤ 300) :
    resolveResourceKey none f = f ∧
    (let s1 := (retry_with_backoff m1 none f (behaviorOf u1) ErrorTracker.init now).2.2
     let s2 := (retry_with_backoff m2 none f (behaviorOf u2) s1 now).2.2
     let s3 := (retry_with_backoff m3 none f (behaviorOf u3) s2 now).2.2
     let s4 := (retry_with_backoff m4 none f (behaviorOf u4) s3 now).2.2
     let s5 := (retry_with_backoff m5 none f (behaviorOf u5) s4 now).2.2
     retry_with_backoff m6 none f (behaviorOf u6) s5 now2 =
       (.circuitOpenError f, 0, s5)) := by
  refine ⟨rfl, ?_⟩
  have h0flag : ErrorTracker.init.openFlag f = false := rfl
  have h0tot : ErrorTracker.init.totalErrors f = 0 := rfl
  have h0th : ErrorTracker.init.errorThreshold = 5 := rfl
  have h0ri : ErrorTracker.init.resetInterval = 300 := rfl
  have step1 := retry_exhausted_records_once m1 f (behaviorOf u1) (errOf u1)
    (hb u1) ErrorTracker.init now h0flag
  simp only [step1]
  obtain ⟨h1tot', h1flag, h1th', h1ri'⟩ := record_step_facts ErrorTracker.init f
    (errOf u1) now (by rw [h0tot, h0th]; omega) h0flag
  set t1 := ErrorTracker.init.record_error f (errOf u1) now with ht1
  have h1tot : t1.totalErrors f = 1 := by rw [h1tot', h0tot]
  have h1th : t1.errorThreshold = 5 := by rw [h1th', h0th]
  have h1ri : t1.resetInterval = 300 := by rw [h1ri', h0ri]
  have step2 := retry_exhausted_records_once m2 f (behaviorOf u2) (errOf u2)
    (hb u2) t1 now h1flag
  simp only [step2]
  obtain ⟨h2tot', h2flag, h2th', h2ri'⟩ := record_step_facts t1 f
    (errOf u2) now (by rw [h1tot, h1th]; omega) h1flag
  set t2 := t1.record_error f (errOf u2) now with ht2
  have h2tot : t2.totalErrors f = 2 := by rw [h2tot', h1tot]
  have h2th : t2.errorThreshold = 5 := by rw [h2th', h1th]
  have h2ri : t2.resetInterval = 300 := by rw [h2ri', h1ri]
  have step3 := retry_exhausted_records_once m3 f (behaviorOf u3) (errOf u3)
    (hb u3) t2 now h2flag
  simp only [step3]
  obtain ⟨h3tot', h3flag, h3th', h3ri'⟩ := record_step_facts t2 f
    (errOf u3) now (by rw [h2tot, h2th]; omega) h2flag
  set t3 := t2.record_error f (errOf u3) now with ht3
  have h3tot : t3.totalErrors f = 3 := by rw [h3tot', h2tot]
  have h3th : t3.errorThreshold = 5 := by rw [h3th', h2th]
  have h3ri : t3.resetInterval = 300 := by rw [h3ri', h2ri]
  have step4 := retry_exhausted_records_once m4 f (behaviorOf u4) (errOf u4)
    (hb u4) t3 now h3flag
  simp only [step4]
  obtain ⟨h4tot', h4flag, h4th', h4ri'⟩ := record_step_facts t3 f
    (errOf u4) now (by rw [h3tot, h3th]; omega) h3flag
  set t4 := t3.record_error f (errOf u4) now with ht4
  have h4tot : t4.totalErrors f = 4 := by rw [h4tot', h3tot]
  have h4th : t4.errorThreshold = 5 := by rw [h4th', h3th]
  have h4ri : t4.resetInterval = 300 := by rw [h4ri', h3ri]
  have step5 := retry_exhausted_records_once m5 f (behaviorOf u5) (errOf u5)
    (hb u5) t4 now h4flag
  simp only [step5]
  set t5 := t4.record_error f (errOf u5) now with ht5
  have h5tot : t5.totalErrors f = 5 := by
    rw [ht5, record_error_totalErrors, h4tot]
  have h5ri : t5.resetInterval = 300 := by rw [ht5, record_error_resetInterval, h4ri]
  have h5flag : t5.openFlag f = true := by
    rw [ht5]
    apply record_error_opens
    rw [record_error_totalErrors, h4tot, h4th]
  have h5last : t5.lastErrorTime.lookup f = some now := by
    rw [ht5]; exact record_error_lastErrorTime t4 f (errOf u5) now
  have hgt : ¬ (now2 - now > t5.resetInterval) := by rw [h5ri]; omega
  have hchk : t5.check_circuit f now2 = (true, t5) := by
    simp [ErrorTracker.check_circuit, h5flag, h5last, hgt]
  simp [retry_with_backoff, resolveResourceKey, hchk]

/-- Witness for C10: five timeouts against five different domains, all
through a wrapper defaulting its resource key to the function name
`"scrape_contacts"`, open that single shared circuit; the sixth call
against yet another domain fails fast with zero invocations. -/
theorem default_key_shared_circuit_witness :
    (let bOf : String → Nat → Outcome Unit := fun u _ => .retryable ("Timeout:" ++ u)
     let s1 := (retry_with_backoff 2 none "scrape_contacts" (bOf "a.com")
       ErrorTracker.init 7).2.2
     let s2 := (retry_with_backoff 2 none "scrape_contacts" (bOf "b.com") s1 7).2.2
     let s3 := (retry_with_backoff 2 none "scrape_contacts" (bOf "c.com") s2 7).2.2
     let s4 := (retry_with_backoff 2 none "scrape_contacts" (bOf "d.com") s3 7).2.2
     let s5 := (retry_with_backoff 2 none "scrape_contacts" (bOf "e.com") s4 7).2.2
     retry_with_backoff 2 none "scrape_contacts" (bOf "f.com") s5 200 =
       (.circuitOpenError "scrape_contacts", 0, s5)) := by
  exact (default_key_shared_circuit "scrape_contacts" (fun u => "Timeout:" ++ u)
    (fun u _ => .retryable ("Timeout:" ++ u)) (fun _ _ => rfl)
    "a.com" "b.com" "c.com" "d.com" "e.com" "f.com"
    2 2 2 2 2 2 7 200 (by omega)).2

/-- Counterexample to C3: two candidates sharing an email but with different
confidence scores are NOT merged — the first-encountered record is kept
verbatim and the later one is discarded entirely, so the output depends on
input order, keeps the first record's (possibly lower) confidence, and
fills in no missing fields. -/
theorem dedup_same_email_not_merged_counterexample :
    dupLow.email = dupHigh.email ∧
    dupLow.confidence < dupHigh.confidence ∧
    _deduplicate_staff [dupLow, dupHigh] = [dupLow] ∧
    _deduplicate_staff [dupHigh, dupLow] = [dupHigh] ∧
    _deduplicate_staff [dupLow, dupHigh] ≠ _deduplicate_staff [dupHigh, dupLow] := by
  decide

/-- C3 amended: when two candidates share an email, `_deduplicate_staff`
keeps whichever appeared first in the input unchanged and drops the later
one entirely (no merging of confidence or fields); only candidates sharing
a name with no shared email get the fill-missing-fields merge. -/
theorem dedup_same_email_keeps_first (s1 s2 : Staff) (e : String)
    (h1 : s1.email = some e) (h2 : s2.email = some e) :
    _deduplicate_staff [s1, s2] = [s1] := by
  cases hn : s1.name <;>
    simp [_deduplicate_staff, dedupLoop, truthyMem, addTruthy, h1, h2, hn]

/-- Witness for the amended C3: the concrete same-email pair above. -/
theorem dedup_same_email_keeps_first_witness :
    _deduplicate_staff [dupLow, dupHigh] = [dupLow] :=
  dedup_same_email_keeps_first dupLow dupHigh "a@dealer.com" rfl rfl

theorem validate_confidence (m : Staff) :
    (_validate_staff_member m).confidence = m.confidence := rfl

/-- C9.  The final filtering stage never outputs a candidate whose
accumulated confidence is below 2 points (4 half-points): every member of
`_filter_and_limit_staff`'s output scores at least 2, so a candidate
retained by the name-plus-one-other-field rule but scoring below 2 never
appears. -/
theorem filter_and_limit_discards_below_two (l : List Staff) (s : Staff)
    (h : s ∈ _filter_and_limit_staff l) : 4 ≤ s.confidence := by
  unfold _filter_and_limit_staff at h
  have h1 : s ∈ ((sortByConfidence l).filter
      (fun s => s.confidence ≥ 4)).map _validate_staff_member :=
    List.take_subset 20 _ h
  obtain ⟨y, hy, hval⟩ := List.mem_map.mp h1
  obtain ⟨-, hconf⟩ := List.mem_filter.mp hy
  have : y.confidence ≥ 4 := by simpa using hconf
  rw [← hval, validate_confidence]
  exact this

/-- Witness for C9: in a batch containing one candidate above the bar and
one below it, the member of the output has confidence ≥ 2 points, and the
below-bar candidate is absent. -/
theorem filter_and_limit_discards_below_two_witness :
    4 ≤ (_validate_staff_member strongCandidate).confidence ∧
    _filter_and_limit_staff [weakCandidate, strongCandidate] =
      [_validate_staff_member strongCandidate] := by
  refine ⟨?_, by decide⟩
  exact filter_and_limit_discards_below_two [weakCandidate, strongCandidate]
    (_validate_staff_member strongCandidate) (by decide)

/-- Counterexample to C7's universal part: a regex tuple with an empty area
code, a 3-digit exchange and a 4-digit line — exactly the missing-area-code
branch — is accepted and normalized to a 7-digit number, which is neither
10 digits nor 11 digits with a leading 1. -/
theorem phone_tuple_seven_digits_counterexample :
    _format_phone_number (.tup3 "" "555" "1234") = some "5551234" ∧
    ("5551234" : String).length ≠ 10 ∧ ("5551234" : String).length ≠ 11 := by
  decide

/-- Every accepted string input comes out as exactly 10 characters. -/
theorem phone_string_output_ten (s r : String)
    (h : _format_phone_number (.str s) = some r) : r.length = 10 := by
  simp only [_format_phone_number] at h
  set digits := s.data.filter (fun c => c.isDigit) with hd
  by_cases h10 : digits.length ≥ 10
  · rw [if_pos h10] at h
    by_cases heq : (digits.length == 10) = true
    · rw [if_pos heq] at h
      cases h
      simpa [String.length] using heq
    · rw [Bool.not_eq_true] at heq
      rw [if_neg (by simp [heq])] at h
      by_cases h11 : (digits.length == 11 && digits.take 1 == ['1']) = true
      · rw [if_pos h11] at h
        cases h
        have hlen : digits.length = 11 := by
          have := (Bool.and_eq_true _ _).mp h11
          exact beq_iff_eq.mp this.1
        simp [String.length, hlen]
      · rw [Bool.not_eq_true] at h11
        rw [if_neg (by simp [h11])] at h
        cases h
        simp [String.length, lastTen]
        omega
  · rw [if_neg h10] at h
    cases h

/-- C7 amended: the three concrete examples behave as the claim states
(`"12165551234"` → `"2165551234"`, `"2165551234"` unchanged, `"5551234"`
rejected), and every STRING input the normalizer accepts comes out as
exactly 10 digits; but tuple inputs through the missing-area-code branch
can come out as 7 digits (see the counterexample), so the universal
10-or-11-digit guarantee holds only for the string form. -/
theorem phone_format_spec :
    _format_phone_number (.str "12165551234") = some "2165551234" ∧
    _format_phone_number (.str "2165551234") = some "2165551234" ∧
    _format_phone_number (.str "5551234") = none ∧
    ∀ s r, _format_phone_number (.str s) = some r → r.length = 10 :=
  ⟨by decide, by decide, by decide, phone_string_output_ten⟩

/-- Witness for the amended C7: a punctuated 12-character string with 10
digits is accepted and is 10 digits long. -/
theorem phone_format_spec_witness : ("2165551234" : String).length = 10 :=
  phone_format_spec.2.2.2 "216-555-1234" "2165551234" (by decide)

/-- C5.  Escalation under policy `auto`: Selenium succeeds with at least one
email and one phone but no address, Firecrawl succeeds — the coordinator
escalates and merges: final emails and phones are the set union of both
backends' results, the final address is Selenium's when non-null and
otherwise Firecrawl's (here: Firecrawl's, non-null whenever Firecrawl
supplies one), and the method is the combined `"hybrid"` state. -/
theorem hybrid_auto_incomplete_escalates (sr fr : ContactResult)
    (hE : sr.emails ≠ []) (hP : sr.phones ≠ []) (hA : sr.address = none) :
    (∀ x, x ∈ (extract_contacts .auto (.ok sr) (.ok fr)).emails ↔
        x ∈ sr.emails ∨ x ∈ fr.emails) ∧
    (∀ x, x ∈ (extract_contacts .auto (.ok sr) (.ok fr)).phones ↔
        x ∈ sr.phones ∨ x ∈ fr.phones) ∧
    (extract_contacts .auto (.ok sr) (.ok fr)).address = fr.address ∧
    (fr.address.isSome →
      (extract_contacts .auto (.ok sr) (.ok fr)).address.isSome) ∧
    (extract_contacts .auto (.ok sr) (.ok fr)).method_used = "hybrid" := by
  have hres : extract_contacts .auto (.ok sr) (.ok fr) =
      { emails := (sr.emails ++ fr.emails).dedup
        phones := (sr.phones ++ fr.phones).dedup
        address := if sr.address.isNone && fr.address.isSome then fr.address
          else sr.address
        method_used := "hybrid" } := by
    simp [extract_contacts, hA]
  rw [hres]
  refine ⟨?_, ?_, ?_, ?_, rfl⟩
  · intro x; simp [List.mem_dedup]
  · intro x; simp [List.mem_dedup]
  · cases hfa : fr.address <;> simp [hA, hfa]
  · intro hs
    cases hfa : fr.address <;> simp [hA, hfa] <;> simp [hfa] at hs

/-- Witness for C5: with the concrete results above, the merged address is
Firecrawl's and the method is `"hybrid"`. -/
theorem hybrid_auto_incomplete_escalates_witness :
    (extract_contacts .auto (.ok srIncomplete) (.ok frWithAddress)).address =
      some "100 Main St, Cleveland, OH 44113" ∧
    (extract_contacts .auto (.ok srIncomplete) (.ok frWithAddress)).method_used =
      "hybrid" ∧
    ("info@dealer.com" ∈
      (extract_contacts .auto (.ok srIncomplete) (.ok frWithAddress)).emails ↔
      "info@dealer.com" ∈ srIncomplete.emails ∨
        "info@dealer.com" ∈ frWithAddress.emails) := by
  have h := hybrid_auto_incomplete_escalates srIncomplete frWithAddress
    (by decide) (by decide) rfl
  refine ⟨?_, h.2.2.2.2, h.1 "info@dealer.com"⟩
  rw [h.2.2.1]; rfl

set_option maxRecDepth 4000 in
/-- Counterexample to C8: with no exact keyword match and a keyword whose
fuzzy similarity ratio to the name is exactly 80 (so "≥ 80" holds), the
code returns `"Other"` rather than that keyword's category — the source
requires the ratio to be strictly greater than 80 (`ratio > 80`). -/
theorem fuzzy_threshold_80_counterexample :
    directMatch manufacturerTable (lowerStr "ZZZ Motors LLC") (lowerStr "") = none ∧
    ("Toyota", "toyota") ∈ kwPairs manufacturerTable ∧
    ratioStub "toyota" (lowerStr "ZZZ Motors LLC") = 80 ∧
    identify_manufacturer ratioStub manufacturerTable "ZZZ Motors LLC" "" =
      "Other" := by
  decide

theorem fuzzyFold_spec (ratio : String → String → Nat) (name : String) :
    ∀ (pairs : List (String × String)) (best : Option String) (high : Nat),
      (pairs.foldl (fuzzyStep ratio name) (best, high) = (best, high) ∧
        ∀ p ∈ pairs, ratio p.2 name ≤ max high 80) ∨
      (∃ p ∈ pairs,
        (pairs.foldl (fuzzyStep ratio name) (best, high)).1 = some p.1 ∧
        (pairs.foldl (fuzzyStep ratio name) (best, high)).2 = ratio p.2 name ∧
        max high 80 < ratio p.2 name ∧
        ∀ q ∈ pairs,
          ratio q.2 name ≤ (pairs.foldl (fuzzyStep ratio name) (best, high)).2) := by
  intro pairs
  induction pairs with
  | nil => intro best high; left; simp
  | cons p rest ih =>
    intro best high
    by_cases hr : high < ratio p.2 name ∧ 80 < ratio p.2 name
    · have hstep : fuzzyStep ratio name (best, high) p =
          (some p.1, ratio p.2 name) := by simp [fuzzyStep, hr]
      rcases ih (some p.1) (ratio p.2 name) with ⟨heq, hall⟩ | ⟨q, hq, h1, h2, h3, h4⟩
      · right
        refine ⟨p, by simp, ?_⟩
        simp only [List.foldl_cons, hstep, heq]
        refine ⟨by trivial, by trivial, by omega, ?_⟩
        intro q hq
        rcases List.mem_cons.mp hq with hq | hq
        · subst hq; omega
        · have := hall q hq; omega
      · right
        refine ⟨q, List.mem_cons_of_mem p hq, ?_⟩
        simp only [List.foldl_cons, hstep]
        refine ⟨h1, h2, by omega, ?_⟩
        intro q' hq'
        rcases List.mem_cons.mp hq' with hq' | hq'
        · subst hq'; rw [h2]; omega
        · exact h4 q' hq'
    · have hstep : fuzzyStep ratio name (best, high) p = (best, high) := by
        simp only [fuzzyStep]
        rw [if_neg hr]
      have hple : ratio p.2 name ≤ max high 80 := by omega
      rcases ih best high with ⟨heq, hall⟩ | ⟨q, hq, h1, h2, h3, h4⟩
      · left
        constructor
        · simp only [List.foldl_cons, hstep, heq]
        · intro q hq
          rcases List.mem_cons.mp hq with hq | hq
          · subst hq; exact hple
          · exact hall q hq
      · right
        refine ⟨q, List.mem_cons_of_mem p hq, ?_⟩
        simp only [List.foldl_cons, hstep]
        refine ⟨h1, h2, h3, ?_⟩
        intro q' hq'
        rcases List.mem_cons.mp hq' with hq' | hq'
        · subst hq'; rw [h2]; omega
        · exact h4 q' hq'

/-- C8 amended: classification returns the first category one of whose
keywords occurs in the lowercased name or URL; with no such exact match it
returns the category of a keyword attaining the highest fuzzy ratio to the
lowercased name provided that ratio is STRICTLY GREATER than 80 (the source
tests `ratio > 80`, so a ratio of exactly 80 falls through), and otherwise
returns `"Other"`.  (That it runs regardless of liveness is shown by
`process_batch`: see the orchestrator embedding, where both the active and
inactive paths classify.) -/
theorem identify_manufacturer_spec (ratio : String → String → Nat)
    (table : List (String × List String)) (dealershipName website : String) :
    (∀ m, directMatch table (lowerStr dealershipName) (lowerStr website) = some m →
      identify_manufacturer ratio table dealershipName website = m) ∧
    (directMatch table (lowerStr dealershipName) (lowerStr website) = none →
      ((∀ p ∈ kwPairs table, ratio p.2 (lowerStr dealershipName) ≤ 80) →
        identify_manufacturer ratio table dealershipName website = "Other") ∧
      ((∃ p ∈ kwPairs table, 80 < ratio p.2 (lowerStr dealershipName)) →
        ∃ p ∈ kwPairs table, 80 < ratio p.2 (lowerStr dealershipName) ∧
          (∀ q ∈ kwPairs table,
            ratio q.2 (lowerStr dealershipName) ≤ ratio p.2 (lowerStr dealershipName)) ∧
          identify_manufacturer ratio table dealershipName website = p.1)) := by
  constructor
  · intro m hm
    simp [identify_manufacturer, hm]
  · intro hnone
    have hspec := fuzzyFold_spec ratio (lowerStr dealershipName) (kwPairs table)
      none 0
    constructor
    · intro hle
      rcases hspec with ⟨heq, -⟩ | ⟨q, hq, -, -, h3, -⟩
      · simp [identify_manufacturer, hnone, heq]
      · exfalso
        have := hle q hq
        simp at h3
        omega
    · rintro ⟨p, hp, hgt⟩
      rcases hspec with ⟨-, hall⟩ | ⟨q, hq, h1, h2, h3, h4⟩
      · exfalso
        have := hall p hp
        simp at this
        omega
      · refine ⟨q, hq, by simp at h3; omega, ?_, ?_⟩
        · intro q' hq'
          have := h4 q' hq'
          omega
        · simp [identify_manufacturer, hnone, h1]

/-- Witness for the amended C8: the direct-match clause at a name containing
`"toyota"`, and the fuzzy clause at a stub ratio of 90 (> 80) for the
`"honda"` keyword. -/
theorem identify_manufacturer_spec_witness :
    identify_manufacturer ratioStub90 manufacturerTable "Best Toyota" "" =
      "Toyota" ∧
    ∃ p ∈ kwPairs manufacturerTable,
      80 < ratioStub90 p.2 (lowerStr "Hondo Autos") ∧
      (∀ q ∈ kwPairs manufacturerTable,
        ratioStub90 q.2 (lowerStr "Hondo Autos") ≤
          ratioStub90 p.2 (lowerStr "Hondo Autos")) ∧
      identify_manufacturer ratioStub90 manufacturerTable "Hondo Autos" "" = p.1 := by
  constructor
  · exact (identify_manufacturer_spec ratioStub90 manufacturerTable
      "Best Toyota" "").1 "Toyota" (by decide)
  · exact ((identify_manufacturer_spec ratioStub90 manufacturerTable
      "Hondo Autos" "").2 (by decide)).2 (by decide)

set_option maxRecDepth 8000 in
/-- Counterexample to C4: on the 3-target batch (live / all-timeouts /
connection-refused) the final statistics are `total_processed = 1` — not 3:
records whose verification raises are never counted — and the failure list
has TWO entries (both the timeout target and the connection-refused
target): connection refused is a retried `requests.ConnectionError`, which
exhausts retries and raises, so target 3 yields a failure record and there
is no inactive result record for it. -/
theorem batch_scenario_counterexample :
    (process_batch ratioZero [liveRow, timeoutRow, refusedRow] 0
        initialBatchState).totalProcessed = 1 ∧
    (process_batch ratioZero [liveRow, timeoutRow, refusedRow] 0
        initialBatchState).activeWebsites = 1 ∧
    ((process_batch ratioZero [liveRow, timeoutRow, refusedRow] 0
        initialBatchState).failedInBatch.map FailureRecord.dealershipName) =
      ["Central Ford", "Alpine Honda"] ∧
    ((process_batch ratioZero [liveRow, timeoutRow, refusedRow] 0
        initialBatchState).results.map ResultRecord.dealershipName) =
      ["Best Toyota"] := by
  decide

set_option maxRecDepth 8000 in
/-- C4 amended: the batch yields `total_processed = 1` (only records that
complete without an exception are counted), `active_count = 1`, and a
failure count of 2 — targets 2 AND 3 both land in the failure list, with
target 3's connection-refused error retried and re-raised like a timeout
rather than recorded as an inactive result; record failures stay
record-scoped: the live sibling is fully processed (with its contacts and
its manufacturer classification) wherever it sits in the batch, including
after both failing targets. -/
theorem batch_scenario_amended :
    (process_batch ratioZero [liveRow, timeoutRow, refusedRow] 0
        initialBatchState).totalProcessed = 1 ∧
    (process_batch ratioZero [liveRow, timeoutRow, refusedRow] 0
        initialBatchState).activeWebsites = 1 ∧
    ((process_batch ratioZero [liveRow, timeoutRow, refusedRow] 0
        initialBatchState).failedInBatch.map FailureRecord.error) =
      ["ReadTimeout", "ConnectionError"] ∧
    (process_batch ratioZero [liveRow, timeoutRow, refusedRow] 0
        initialBatchState).results =
      [{ dealershipName := "Best Toyota", website := "https://dealer-one.example"
         isActive := true, finalUrl := "https://dealer-one.example/"
         manufacturer := "Toyota"
         contacts := ["email:sales@dealer-one.example", "phone:2165551234",
           "address:1 Main St, Cleveland, OH 44113"] }] ∧
    ((process_batch ratioZero [timeoutRow, refusedRow, liveRow] 0
        initialBatchState).results.map ResultRecord.dealershipName) =
      ["Best Toyota"] ∧
    (process_batch ratioZero [timeoutRow, refusedRow, liveRow] 0
        initialBatchState).totalProcessed = 1 := by
  decide

end DV

